/-
  Verification of the resilient multi-strategy price-extraction engine of
  the `reddit-scrapper` repository (files `UnifiedPriceScraper.py` and
  `stealth_scraper.py`), against its natural-language specification.

  The Python code is shallowly embedded: methods become Lean functions,
  the mutable scraper fields that the credential pool uses
  (`api_keys`, `current_key_index`, `failed_keys`) become an explicit
  state record threaded through the functions, network responses become
  oracle values passed in as arguments, and `try/except` blocks become
  pattern matches on `Except`-shaped response values, with the catch
  placed exactly where the source places it.
-/
import Mathlib

namespace RedditScrapper

/-! ## Credential pool

Embedding of the rotation state held by `UnifiedScraper.__init__`
(`UnifiedPriceScraper.py` lines 34-41; identical in `stealth_scraper.py`):
`api_keys` is the list of configured credential strings, `current_key_index`
the round-robin cursor, `failed_keys` the set of exhausted `key_id`s
(1-based indices). -/

structure PoolState where
  apiKeys : List String
  currentKeyIndex : Nat
  failedKeys : Finset Nat
  deriving DecidableEq

/-- Embedding of the `while attempts < len(self.api_keys)` loop inside
`_get_next_api_key` (`UnifiedPriceScraper.py` lines 96-112, identical in
`stealth_scraper.py` lines 386-401).  Each iteration reads the key at the
cursor, advances the cursor modulo the pool size, skips the key when its
`key_id` is in `failed_keys` (incrementing `attempts`), and otherwise
returns it.  When `attempts` reaches the pool size the fallback branch
clears `failed_keys`, sets the cursor to `1 % len(api_keys)` and returns
the first key with `key_id` 1. -/
def getNextLoop (s : PoolState) (attempts : Nat) : (String × Nat) × PoolState :=
  if h : attempts < s.apiKeys.length then
    let key := s.apiKeys.getD s.currentKeyIndex ""
    let keyId := s.currentKeyIndex + 1
    let s' : PoolState :=
      { s with currentKeyIndex := (s.currentKeyIndex + 1) % s.apiKeys.length }
    if keyId ∈ s.failedKeys then
      getNextLoop s' (attempts + 1)
    else
      ((key, keyId), s')
  else
    ((s.apiKeys.getD 0 "", 1),
      { s with failedKeys := ∅, currentKeyIndex := 1 % s.apiKeys.length })
termination_by s.apiKeys.length - attempts
decreasing_by simp_all; omega

/-- Embedding of `_get_next_api_key` (`UnifiedPriceScraper.py` lines 91-112):
returns `none` exactly when no credentials are configured, otherwise runs the
skip loop starting at `attempts = 0`. -/
def getNextApiKey (s : PoolState) : Option ((String × Nat) × PoolState) :=
  if s.apiKeys = [] then none
  else some (getNextLoop s 0)

/-- Embedding of `_mark_key_failed` (`UnifiedPriceScraper.py` lines 114-116):
adds the `key_id` to the exhausted set. -/
def markKeyFailed (keyId : Nat) (s : PoolState) : PoolState :=
  { s with failedKeys := insert keyId s.failedKeys }

/-- Iterated pool draws: the list of returned `(key, key_id)` pairs and
the final pool state.  Stops early (returning fewer pairs) only if a draw
returns `none`, i.e. only if no credentials are configured. -/
def nextCalls : Nat → PoolState → List (String × Nat) × PoolState
  | 0, s => ([], s)
  | n + 1, s =>
    match getNextApiKey s with
    | none => ([], s)
    | some (r, s') =>
      let p := nextCalls n s'
      (r :: p.1, p.2)

/-! ### Pool lemmas -/

lemma getNextLoop_step (s : PoolState) (attempts : Nat)
    (h : attempts < s.apiKeys.length)
    (hact : s.currentKeyIndex + 1 ∉ s.failedKeys) :
    getNextLoop s attempts =
      ((s.apiKeys.getD s.currentKeyIndex "", s.currentKeyIndex + 1),
        { s with currentKeyIndex := (s.currentKeyIndex + 1) % s.apiKeys.length }) := by
  rw [getNextLoop]
  simp [h, hact]

lemma getNextLoop_skip (s : PoolState) (attempts : Nat)
    (h : attempts < s.apiKeys.length)
    (hfail : s.currentKeyIndex + 1 ∈ s.failedKeys) :
    getNextLoop s attempts =
      getNextLoop
        { s with currentKeyIndex := (s.currentKeyIndex + 1) % s.apiKeys.length }
        (attempts + 1) := by
  rw [getNextLoop]
  simp [h, hfail]

lemma getNextLoop_stop (s : PoolState) (attempts : Nat)
    (h : ¬ attempts < s.apiKeys.length) :
    getNextLoop s attempts =
      ((s.apiKeys.getD 0 "", 1),
        { s with failedKeys := ∅, currentKeyIndex := 1 % s.apiKeys.length }) := by
  rw [getNextLoop]
  simp [h]

/-- When every `key_id` from `1` to `N` is exhausted, the skip loop runs out
of attempts and takes the reset branch, whatever the cursor position. -/
lemma getNextLoop_reset (n : Nat) :
    ∀ (s : PoolState) (attempts : Nat),
    s.apiKeys.length - attempts = n →
    s.currentKeyIndex < s.apiKeys.length →
    (∀ j, 1 ≤ j → j ≤ s.apiKeys.length → j ∈ s.failedKeys) →
    getNextLoop s attempts =
      ((s.apiKeys.getD 0 "", 1),
        { s with failedKeys := ∅, currentKeyIndex := 1 % s.apiKeys.length }) := by
  induction n using Nat.strong_induction_on with
  | _ n ih =>
    intro s attempts hn hidx hall
    by_cases h : attempts < s.apiKeys.length
    · have hfail : s.currentKeyIndex + 1 ∈ s.failedKeys := by
        apply hall <;> omega
      rw [getNextLoop_skip s attempts h hfail]
      exact ih (s.apiKeys.length - (attempts + 1)) (by omega) _ _ rfl
        (by simpa using Nat.mod_lt _ (by omega)) hall
    · exact getNextLoop_stop s attempts h

/-- If some key at cyclic offset `t` from the cursor is Active and enough
attempts remain to reach it, the skip loop returns an Active key without
touching the exhausted set. -/
lemma getNextLoop_finds_active (t : Nat) :
    ∀ (s : PoolState) (attempts : Nat),
    s.currentKeyIndex < s.apiKeys.length →
    t + attempts < s.apiKeys.length →
    ((s.currentKeyIndex + t) % s.apiKeys.length) + 1 ∉ s.failedKeys →
    (getNextLoop s attempts).1.2 ∉ s.failedKeys ∧
    (getNextLoop s attempts).2.failedKeys = s.failedKeys ∧
    (getNextLoop s attempts).2.apiKeys = s.apiKeys ∧
    (getNextLoop s attempts).2.currentKeyIndex < s.apiKeys.length ∧
    1 ≤ (getNextLoop s attempts).1.2 ∧
    (getNextLoop s attempts).1.2 ≤ s.apiKeys.length := by
  induction t with
  | zero =>
    intro s attempts hidx hlt hact
    have hact' : s.currentKeyIndex + 1 ∉ s.failedKeys := by
      simpa [Nat.mod_eq_of_lt hidx] using hact
    rw [getNextLoop_step s attempts (by omega) hact']
    exact ⟨hact', rfl, rfl,
      show (s.currentKeyIndex + 1) % s.apiKeys.length < s.apiKeys.length from
        Nat.mod_lt _ (by omega),
      show 1 ≤ s.currentKeyIndex + 1 by omega,
      show s.currentKeyIndex + 1 ≤ s.apiKeys.length by omega⟩
  | succ t ih =>
    intro s attempts hidx hlt hact
    by_cases hcur : s.currentKeyIndex + 1 ∈ s.failedKeys
    · rw [getNextLoop_skip s attempts (by omega) hcur]
      exact ih { s with currentKeyIndex := (s.currentKeyIndex + 1) % s.apiKeys.length }
        (attempts + 1)
        (show (s.currentKeyIndex + 1) % s.apiKeys.length < s.apiKeys.length from
          Nat.mod_lt _ (by omega))
        (show t + (attempts + 1) < s.apiKeys.length by omega)
        (show ((s.currentKeyIndex + 1) % s.apiKeys.length + t) % s.apiKeys.length + 1 ∉
            s.failedKeys by
          rw [Nat.mod_add_mod, Nat.add_assoc, Nat.add_comm 1 t]
          exact hact)
    · rw [getNextLoop_step s attempts (by omega) hcur]
      exact ⟨hcur, rfl, rfl,
        show (s.currentKeyIndex + 1) % s.apiKeys.length < s.apiKeys.length from
          Nat.mod_lt _ (by omega),
        show 1 ≤ s.currentKeyIndex + 1 by omega,
        show s.currentKeyIndex + 1 ≤ s.apiKeys.length by omega⟩

/-- With no exhausted keys, one draw returns the key at the cursor and
advances the cursor by one modulo the pool size. -/
lemma getNextApiKey_empty (s : PoolState) (hf : s.failedKeys = ∅)
    (hN : 0 < s.apiKeys.length) :
    getNextApiKey s =
      some ((s.apiKeys.getD s.currentKeyIndex "", s.currentKeyIndex + 1),
        { s with currentKeyIndex := (s.currentKeyIndex + 1) % s.apiKeys.length }) := by
  have hne : s.apiKeys ≠ [] := by
    intro h; rw [h] at hN; simp at hN
  rw [getNextApiKey, if_neg hne, getNextLoop_step s 0 hN (by simp [hf])]

/-- Closed form for `n` successive draws from an all-Active pool: the `j`-th
draw returns the key at cyclic offset `j` from the starting cursor. -/
lemma nextCalls_empty (n : Nat) :
    ∀ (s : PoolState), s.failedKeys = ∅ →
    s.currentKeyIndex < s.apiKeys.length →
    (nextCalls n s).1 = (List.range n).map (fun j =>
        (s.apiKeys.getD ((s.currentKeyIndex + j) % s.apiKeys.length) "",
          ((s.currentKeyIndex + j) % s.apiKeys.length) + 1)) ∧
    (nextCalls n s).2 =
      { s with currentKeyIndex := (s.currentKeyIndex + n) % s.apiKeys.length } := by
  induction n with
  | zero =>
    intro s hf hidx
    constructor
    · simp [nextCalls]
    · simp [nextCalls, Nat.mod_eq_of_lt hidx]
  | succ n ih =>
    intro s hf hidx
    have hN : 0 < s.apiKeys.length := by omega
    rw [nextCalls, getNextApiKey_empty s hf hN]
    have hih := ih { s with currentKeyIndex := (s.currentKeyIndex + 1) % s.apiKeys.length }
      hf (by simpa using Nat.mod_lt _ (by omega))
    simp only at hih
    constructor
    · simp only [hih.1, List.range_succ_eq_map, List.map_cons, List.map_map]
      congr 1
      · simp [Nat.mod_eq_of_lt hidx]
      · apply List.map_congr_left
        intro j _
        simp [Function.comp, Nat.mod_add_mod, Nat.add_assoc, Nat.add_comm 1 j]
    · simp only [hih.2]
      congr 1
      rw [Nat.mod_add_mod, Nat.add_assoc, Nat.add_comm 1 n]

/-- A helper fact used for both the round-robin count and the
exhausted-key clause: the cyclic offset that reaches a given `key_id`. -/
lemma cyclic_offset_hits (idx kid N : Nat) (hidx : idx < N) (h1 : 1 ≤ kid)
    (h2 : kid ≤ N) :
    (idx + (kid - 1 + N - idx) % N) % N + 1 = kid := by
  have hle : idx ≤ kid - 1 + N := by omega
  rw [Nat.add_mod_mod, Nat.add_sub_cancel' hle, Nat.add_mod_right,
    Nat.mod_eq_of_lt (by omega)]
  omega

/-- C1: a pool of `N ≥ 1` credentials, none exhausted, yields on `N`
successive `_get_next_api_key` calls each credential exactly once, in the
fixed cyclical order starting at the cursor; and as long as some credential
is Active, a call never returns an exhausted credential (the only way an
exhausted `key_id` can come back is the reset branch, which fires only when
every `key_id` is exhausted). -/
theorem credentialPool_roundRobin (s : PoolState) (N : Nat)
    (hN : s.apiKeys.length = N) (h1 : 1 ≤ N) (hf : s.failedKeys = ∅)
    (hidx : s.currentKeyIndex < N) :
    ((nextCalls N s).1.map Prod.snd =
      (List.range N).map (fun j => ((s.currentKeyIndex + j) % N) + 1)) ∧
    (∀ kid, 1 ≤ kid → kid ≤ N →
      ((nextCalls N s).1.map Prod.snd).count kid = 1) ∧
    (∀ s' : PoolState, s'.apiKeys.length = N → s'.currentKeyIndex < N →
      (∃ j, 1 ≤ j ∧ j ≤ N ∧ j ∉ s'.failedKeys) →
      ∀ r s'', getNextApiKey s' = some (r, s'') → r.2 ∉ s'.failedKeys) := by
  subst hN
  have hform := (nextCalls_empty s.apiKeys.length s hf hidx).1
  have hmap : (nextCalls s.apiKeys.length s).1.map Prod.snd =
      (List.range s.apiKeys.length).map
        (fun j => ((s.currentKeyIndex + j) % s.apiKeys.length) + 1) := by
    rw [hform, List.map_map]
    rfl
  refine ⟨hmap, ?_, ?_⟩
  · intro kid hk1 hk2
    rw [hmap]
    have hinj : ∀ x ∈ List.range s.apiKeys.length, ∀ y ∈ List.range s.apiKeys.length,
        ((s.currentKeyIndex + x) % s.apiKeys.length) + 1 =
          ((s.currentKeyIndex + y) % s.apiKeys.length) + 1 → x = y := by
      intro x hx y hy hxy
      rw [List.mem_range] at hx hy
      have hmod : (s.currentKeyIndex + x) % s.apiKeys.length =
          (s.currentKeyIndex + y) % s.apiKeys.length := by omega
      have := Nat.ModEq.add_left_cancel' s.currentKeyIndex hmod
      rw [Nat.ModEq] at this
      rw [Nat.mod_eq_of_lt hx, Nat.mod_eq_of_lt hy] at this
      exact this
    have hnodup : (List.map (fun j => ((s.currentKeyIndex + j) % s.apiKeys.length) + 1)
        (List.range s.apiKeys.length)).Nodup :=
      List.Nodup.map_on hinj (List.nodup_range _)
    have hmem : kid ∈ List.map (fun j => ((s.currentKeyIndex + j) % s.apiKeys.length) + 1)
        (List.range s.apiKeys.length) := by
      rw [List.mem_map]
      refine ⟨(kid - 1 + s.apiKeys.length - s.currentKeyIndex) % s.apiKeys.length,
        List.mem_range.2 (Nat.mod_lt _ (by omega)), ?_⟩
      exact cyclic_offset_hits s.currentKeyIndex kid s.apiKeys.length hidx hk1 hk2
    exact List.count_eq_one_of_mem hnodup hmem
  · intro s' hlen hidx' ⟨j, hj1, hj2, hjact⟩ r s'' hcall
    have hne : s'.apiKeys ≠ [] := by
      intro h; rw [h] at hlen; simp at hlen; omega
    rw [getNextApiKey, if_neg hne] at hcall
    have hact := getNextLoop_finds_active
      ((j - 1 + s'.apiKeys.length - s'.currentKeyIndex) % s'.apiKeys.length) s' 0
      (by omega) (by rw [Nat.add_zero, hlen]; exact Nat.mod_lt _ (by omega))
      (by rw [cyclic_offset_hits s'.currentKeyIndex j s'.apiKeys.length
            (by omega) hj1 (by omega)]
          exact hjact)
    have : r = (getNextLoop s' 0).1 := by
      have := congrArg (fun o => o.map Prod.fst) hcall
      simpa using this.symm
    rw [this]
    exact hact.1

/-- Witness for `credentialPool_roundRobin`: a concrete three-credential
all-Active pool. -/
theorem credentialPool_roundRobin_witness :
    ((⟨["k1", "k2", "k3"], 0, ∅⟩ : PoolState).apiKeys.length = 3 ∧ 1 ≤ 3 ∧
      (⟨["k1", "k2", "k3"], 0, ∅⟩ : PoolState).failedKeys = ∅ ∧
      (⟨["k1", "k2", "k3"], 0, ∅⟩ : PoolState).currentKeyIndex < 3) ∧
    (((nextCalls 3 (⟨["k1", "k2", "k3"], 0, ∅⟩ : PoolState)).1.map Prod.snd =
      (List.range 3).map (fun j => ((0 + j) % 3) + 1)) ∧
    (∀ kid, 1 ≤ kid → kid ≤ 3 →
      ((nextCalls 3 (⟨["k1", "k2", "k3"], 0, ∅⟩ : PoolState)).1.map Prod.snd).count kid
        = 1) ∧
    (∀ s' : PoolState, s'.apiKeys.length = 3 → s'.currentKeyIndex < 3 →
      (∃ j, 1 ≤ j ∧ j ≤ 3 ∧ j ∉ s'.failedKeys) →
      ∀ r s'', getNextApiKey s' = some (r, s'') → r.2 ∉ s'.failedKeys)) :=
  ⟨⟨rfl, by decide, rfl, by decide⟩,
    credentialPool_roundRobin ⟨["k1", "k2", "k3"], 0, ∅⟩ 3 rfl (by decide) rfl
      (by decide)⟩

/-- C2: once `_mark_key_failed` has been called on every `key_id` of a pool
of `N ≥ 1` credentials, the next `_get_next_api_key` call clears the
exhausted set, returns the first configured credential with `key_id` 1, and
leaves the cursor at `1 % N` (round-robin resumes from the first); and
`_get_next_api_key` returns `None` exactly when no credentials are
configured. -/
theorem credentialPool_reset (s : PoolState) (N : Nat)
    (hN : s.apiKeys.length = N) (h1 : 1 ≤ N) (hidx : s.currentKeyIndex < N)
    (hall : ∀ j, 1 ≤ j → j ≤ N → j ∈ s.failedKeys) :
    getNextApiKey s =
      some ((s.apiKeys.getD 0 "", 1),
        { s with failedKeys := ∅, currentKeyIndex := 1 % N }) ∧
    (∀ s' : PoolState, getNextApiKey s' = none ↔ s'.apiKeys = []) := by
  subst hN
  constructor
  · have hne : s.apiKeys ≠ [] := by
      intro h; rw [h] at h1; simp at h1
    rw [getNextApiKey, if_neg hne,
      getNextLoop_reset (s.apiKeys.length - 0) s 0 rfl hidx hall]
  · intro s'
    rw [getNextApiKey]
    by_cases h : s'.apiKeys = [] <;> simp [h]

/-- Witness for `credentialPool_reset`: a two-credential pool with both
credentials exhausted; the next draw resets and returns credential 1. -/
theorem credentialPool_reset_witness :
    ((⟨["k1", "k2"], 0, {1, 2}⟩ : PoolState).apiKeys.length = 2 ∧ 1 ≤ 2 ∧
      (⟨["k1", "k2"], 0, {1, 2}⟩ : PoolState).currentKeyIndex < 2 ∧
      (∀ j, 1 ≤ j → j ≤ 2 → j ∈ (⟨["k1", "k2"], 0, {1, 2}⟩ : PoolState).failedKeys)) ∧
    (getNextApiKey (⟨["k1", "k2"], 0, {1, 2}⟩ : PoolState) =
      some ((["k1", "k2"].getD 0 "", 1),
        { (⟨["k1", "k2"], 0, {1, 2}⟩ : PoolState) with
            failedKeys := ∅, currentKeyIndex := 1 % 2 }) ∧
      (∀ s' : PoolState, getNextApiKey s' = none ↔ s'.apiKeys = [])) :=
  ⟨⟨rfl, by decide, by decide, by decide⟩,
    credentialPool_reset ⟨["k1", "k2"], 0, {1, 2}⟩ 2 rfl (by decide) (by decide)
      (by decide)⟩

/-! ## Price parsing (`_parse_amazon_prices`)

`UnifiedPriceScraper.py` lines 318-365 (textually identical in
`stealth_scraper.py` lines 593-641).  The BeautifulSoup document is
abstracted to the information the function reads from it: for each CSS
selector of each of the two fixed selector lists, the page answers the
`soup.select_one(selector)` query with an optional matched element, and for
each matched element the function reads its stripped text and the results of
the two `find_parent` probes used in the selling-price loop. -/

/-- The data `_parse_amazon_prices` reads off one matched element:
`el.get_text(strip=True)`, whether `el.find_parent(attrs={"data-a-strike":
"true"})` finds an ancestor, and whether `el.find_parent(class_=
"a-text-price")` finds one. -/
structure Elem where
  text : String
  strikeParent : Bool
  textPriceParent : Bool
  deriving DecidableEq

/-- The answers a page gives to `soup.select_one` for the five
`selling_selectors` and the four `mrp_selectors`, in list order. -/
structure Page where
  sellingEls : List (Option Elem)
  mrpEls : List (Option Elem)
  deriving DecidableEq

/-- The guard `text and ("$" in text or "₹" in text)` from the source:
code point 36 is the dollar sign, 8377 the rupee sign; a one-character
substring test is a character-membership test. -/
def hasCurrency (t : String) : Bool :=
  t ≠ "" && (t.data.contains (Char.ofNat 36) || t.data.contains (Char.ofNat 8377))

/-- The first `for selector in selling_selectors` loop: take the first
matched element whose text is non-empty, contains a currency mark, and has
neither a strike-through ancestor nor an `a-text-price` ancestor; otherwise
fall through to the next selector. -/
def findSellingPrice : List (Option Elem) → Option String
  | [] => none
  | none :: rest => findSellingPrice rest
  | some el :: rest =>
    if hasCurrency el.text && !el.strikeParent && !el.textPriceParent then
      some el.text
    else
      findSellingPrice rest

/-- The second `for selector in mrp_selectors` loop: take the first matched
element with non-empty currency-bearing text. -/
def findMrp : List (Option Elem) → Option String
  | [] => none
  | none :: rest => findMrp rest
  | some el :: rest =>
    if hasCurrency el.text then some el.text else findMrp rest

/-- Embedding of `_parse_amazon_prices`: run the two selector loops over
their `"N/A"` defaults, then apply the final no-discount default
`if mrp == "N/A" and selling_price != "N/A": mrp = selling_price`, and
return `(mrp, selling_price)`. -/
def parseAmazonPrices (p : Page) : String × String :=
  let selling_price := (findSellingPrice p.sellingEls).getD "N/A"
  let mrp0 := (findMrp p.mrpEls).getD "N/A"
  let mrp := if mrp0 = "N/A" ∧ selling_price ≠ "N/A" then selling_price else mrp0
  (mrp, selling_price)

/-! ## Validity classification (`_is_valid_price`)

`UnifiedPriceScraper.py` lines 118-121.  The Python sentinel list also
contains `None`; both arguments are annotated `str` at every call site and
no `str` value equals Python's `None`, so the embedding keeps the six string
sentinels. -/

def invalidSentinels : List String :=
  ["N/A", "Error", "CAPTCHA", "Blocked", "", "No API Key"]

/-- Embedding of `_is_valid_price`: both the selling price and the MRP must
lie outside the sentinel list. -/
def isValidPrice (mrp selling : String) : Bool :=
  decide (selling ∉ invalidSentinels) && decide (mrp ∉ invalidSentinels)

/-! ## Extraction strategies

Network and browser I/O is abstracted to oracle values handed to the
embedded functions: an HTTP GET either raises (the `except` branch of the
source) or yields a status code plus the two facts the source reads off the
body — whether the lower-cased text contains a bot-challenge marker, and the
`Page` abstraction consumed by `_parse_amazon_prices`. -/

/-- Outcome of the `httpx` GET inside `_scrape_amazon_direct`
(`UnifiedPriceScraper.py` lines 224-225): an exception, or a response with
status code, the `"captcha" in html.lower() or "robot" in html.lower()`
marker, and the parseable page content. -/
inductive FetchResult where
  | exn (msg : String)
  | resp (status : Nat) (botMarker : Bool) (page : Page)
  deriving DecidableEq

/-- Outcome of the Playwright navigation plus `page.content()` inside
`_scrape_amazon_playwright` (`UnifiedPriceScraper.py` lines 242-250): an
exception anywhere in the `try` block, or the rendered content. -/
inductive RenderResult where
  | exn (msg : String)
  | content (botMarker : Bool) (page : Page)
  deriving DecidableEq

/-- Outcome of one ScraperAPI GET inside `_scrape_amazon_api`
(`UnifiedPriceScraper.py` lines 285-286), as a function of the credential
used: an exception, or a response with status code, the
`"captcha" in html.lower()` marker, and the page content. -/
inductive ApiResponse where
  | exn (msg : String)
  | resp (status : Nat) (captchaMarker : Bool) (page : Page)
  deriving DecidableEq

/-- Embedding of `_scrape_amazon_direct` (`UnifiedPriceScraper.py` lines
213-236): status 200 with a bot marker gives the `CAPTCHA` sentinel, status
200 otherwise parses the page, any other status and any exception fall
through to `("N/A", "N/A")`. -/
def scrapeAmazonDirect : FetchResult → String × String
  | .exn _ => ("N/A", "N/A")
  | .resp status bot page =>
    if status = 200 then
      if bot then ("CAPTCHA", "CAPTCHA") else parseAmazonPrices page
    else ("N/A", "N/A")

/-- Embedding of `_scrape_amazon_playwright` (`UnifiedPriceScraper.py`
lines 238-261): a bot marker gives the `CAPTCHA` sentinel, otherwise the
page is parsed; any exception gives `("N/A", "N/A")`. -/
def scrapeAmazonPlaywright : RenderResult → String × String
  | .exn _ => ("N/A", "N/A")
  | .content bot page =>
    if bot then ("CAPTCHA", "CAPTCHA") else parseAmazonPrices page

/-- How one credential attempt inside `_scrape_amazon_api` ended. -/
inductive ApiAction where
  | quotaExceeded
  | httpError
  | requestExn
  | captcha
  | success
  deriving DecidableEq

/-- Provenance record for one credential attempt of the ScraperAPI loop:
the `key_id` the pool handed out, how the attempt ended, and the pool state
right after the attempt's handling (in particular, after any
`_mark_key_failed` call) — the state the next attempt draws from. -/
structure ApiAttempt where
  keyId : Nat
  action : ApiAction
  poolAfter : PoolState
  deriving DecidableEq

/-- The result shape of the ScraperAPI loop: the returned
`(mrp, selling, ip_loc)` triple, the pool state after the loop, and the
provenance of the attempts that ran. -/
abbrev ApiLoopResult :=
  (String × String × String) × PoolState × List ApiAttempt

/-- The `try` body of one iteration of `_scrape_amazon_api`
(`UnifiedPriceScraper.py` lines 281-314), as a function of the response the
drawn credential produced: status 403 or 429 marks the key exhausted and
continues (`recurse`); any other non-200 status continues; a 200 body with a
captcha marker returns the `CAPTCHA` sentinel; a 200 body otherwise returns
the parsed prices with the `ip_loc` the source computes for this key
(`ipOf keyId`); a raised request is caught by the `except` and continues. -/
def apiRespCase (ipOf : Nat → String) (captchaIp : String)
    (recurse : PoolState → ApiLoopResult) (keyId : Nat) (s1 : PoolState) :
    ApiResponse → ApiLoopResult
  | .exn _ =>
    let r := recurse s1
    (r.1, r.2.1, ⟨keyId, .requestExn, s1⟩ :: r.2.2)
  | .resp status cap page =>
    if status = 403 ∨ status = 429 then
      let s2 := markKeyFailed keyId s1
      let r := recurse s2
      (r.1, r.2.1, ⟨keyId, .quotaExceeded, s2⟩ :: r.2.2)
    else if status ≠ 200 then
      let r := recurse s1
      (r.1, r.2.1, ⟨keyId, .httpError, s1⟩ :: r.2.2)
    else if cap then
      (("CAPTCHA", "CAPTCHA", captchaIp), s1, [⟨keyId, .captcha, s1⟩])
    else
      let pr := parseAmazonPrices page
      ((pr.1, pr.2, ipOf keyId), s1, [⟨keyId, .success, s1⟩])

/-- The `result = self._get_next_api_key()` step of one iteration
(`UnifiedPriceScraper.py` lines 275-279): a `None` draw returns the
`No API Key` sentinel, otherwise the drawn credential is attempted. -/
def apiDrawCase (ipOf : Nat → String) (captchaIp : String)
    (resp : Nat → ApiResponse) (recurse : PoolState → ApiLoopResult)
    (s : PoolState) :
    Option ((String × Nat) × PoolState) → ApiLoopResult
  | none => (("No API Key", "No API Key", "N/A"), s, [])
  | some ((_key, keyId), s1) =>
    apiRespCase ipOf captchaIp recurse keyId s1 (resp keyId)

/-- Embedding of the `for attempt in range(max_retries)` loop of
`_scrape_amazon_api` (`UnifiedPriceScraper.py` lines 274-316), with `fuel`
the number of attempts remaining.  Each iteration draws the next credential
and handles its response via `apiRespCase`; running out of attempts returns
the `("Error", "Error", "N/A")` fallthrough. -/
def apiRetryLoop (ipOf : Nat → String) (captchaIp : String)
    (resp : Nat → ApiResponse) :
    Nat → PoolState → ApiLoopResult
  | 0, s => (("Error", "Error", "N/A"), s, [])
  | fuel + 1, s =>
    apiDrawCase ipOf captchaIp resp (apiRetryLoop ipOf captchaIp resp fuel) s
      (getNextApiKey s)

/-- Embedding of `_scrape_amazon_api` (`UnifiedPriceScraper.py` lines
263-316): with no configured keys, the `No API Key` sentinel; otherwise
`max_retries = min(3, len(api_keys))` credential attempts.  The source
hard-codes `ip_loc = "ScraperAPI Proxy"` on both the captcha and the success
path. -/
def scrapeAmazonApi (resp : Nat → ApiResponse) (s : PoolState) :
    (String × String × String) × PoolState × List ApiAttempt :=
  if s.apiKeys = [] then (("No API Key", "No API Key", "N/A"), s, [])
  else apiRetryLoop (fun _ => "ScraperAPI Proxy") "ScraperAPI Proxy" resp
    (min 3 s.apiKeys.length) s

/-- Strategy tags, in chain order, for instrumenting which strategies the
orchestrator invoked. -/
inductive Strategy where
  | direct
  | playwright
  | api
  deriving DecidableEq

/-- The oracle values one `_scrape_amazon` call consumes: the direct-fetch
response, the Playwright render outcome, the per-credential ScraperAPI
responses, and what `_get_ip_location` would report. -/
structure AmazonEnv where
  direct : FetchResult
  render : RenderResult
  api : Nat → ApiResponse
  ipLoc : String

/-- Embedding of `_scrape_amazon` (`UnifiedPriceScraper.py` lines 182-211):
try method A, accept on `_is_valid_price`; otherwise method B; otherwise
method C; otherwise return method C's prices with tag `"X"` and ip `"N/A"`.
Besides the returned `(mrp, selling, method, ip)` row and the pool state, the
embedding records the list of strategies that were actually invoked and the
credential-attempt provenance of method C. -/
def scrapeAmazon (env : AmazonEnv) (s : PoolState) :
    (String × String × String × String) × PoolState × List Strategy ×
      List ApiAttempt :=
  let a := scrapeAmazonDirect env.direct
  if isValidPrice a.1 a.2 then
    ((a.1, a.2, "A", env.ipLoc), s, [.direct], [])
  else
    let b := scrapeAmazonPlaywright env.render
    if isValidPrice b.1 b.2 then
      ((b.1, b.2, "B", env.ipLoc), s, [.direct, .playwright], [])
    else
      let c := scrapeAmazonApi env.api s
      if isValidPrice c.1.1 c.1.2.1 then
        ((c.1.1, c.1.2.1, "C", c.1.2.2), c.2.1, [.direct, .playwright, .api],
          c.2.2)
      else
        ((c.1.1, c.1.2.1, "X", "N/A"), c.2.1, [.direct, .playwright, .api],
          c.2.2)

/-! ### Chain and retry-loop lemmas -/

lemma apiRespCase_length (ipOf : Nat → String) (captchaIp : String)
    (recurse : PoolState → ApiLoopResult) (keyId : Nat) (s1 : PoolState)
    (r : ApiResponse) (n : Nat)
    (hrec : ∀ s', (recurse s').2.2.length ≤ n) :
    (apiRespCase ipOf captchaIp recurse keyId s1 r).2.2.length ≤ n + 1 := by
  cases r with
  | exn msg =>
    simpa [apiRespCase] using hrec s1
  | resp status cap page =>
    rw [apiRespCase]
    by_cases hq : status = 403 ∨ status = 429
    · simpa [hq] using hrec (markKeyFailed keyId s1)
    · by_cases h200 : status ≠ 200
      · simpa [hq, h200] using hrec s1
      · by_cases hcap : cap <;> simp [hq, h200, hcap]

lemma apiRetryLoop_length (ipOf : Nat → String) (captchaIp : String)
    (resp : Nat → ApiResponse) :
    ∀ (fuel : Nat) (s : PoolState),
    (apiRetryLoop ipOf captchaIp resp fuel s).2.2.length ≤ fuel := by
  intro fuel
  induction fuel with
  | zero => intro s; simp [apiRetryLoop]
  | succ fuel ih =>
    intro s
    rw [apiRetryLoop]
    cases hnext : getNextApiKey s with
    | none => simp [apiDrawCase]
    | some r =>
      obtain ⟨⟨key, keyId⟩, s1⟩ := r
      rw [apiDrawCase]
      exact apiRespCase_length ipOf captchaIp _ keyId s1 _ fuel ih

lemma apiRespCase_quota_marked (ipOf : Nat → String) (captchaIp : String)
    (recurse : PoolState → ApiLoopResult) (keyId : Nat) (s1 : PoolState)
    (r : ApiResponse) (a : ApiAttempt)
    (hrec : ∀ s' a', a' ∈ (recurse s').2.2 →
      a'.action = ApiAction.quotaExceeded → a'.keyId ∈ a'.poolAfter.failedKeys)
    (ha : a ∈ (apiRespCase ipOf captchaIp recurse keyId s1 r).2.2)
    (hact : a.action = ApiAction.quotaExceeded) :
    a.keyId ∈ a.poolAfter.failedKeys := by
  cases r with
  | exn msg =>
    rw [apiRespCase] at ha
    simp only [List.mem_cons] at ha
    rcases ha with ha | ha
    · subst ha; simp at hact
    · exact hrec s1 a ha hact
  | resp status cap page =>
    rw [apiRespCase] at ha
    by_cases hq : status = 403 ∨ status = 429
    · rw [if_pos hq] at ha
      simp only [List.mem_cons] at ha
      rcases ha with ha | ha
      · subst ha
        simp [markKeyFailed]
      · exact hrec (markKeyFailed keyId s1) a ha hact
    · rw [if_neg hq] at ha
      by_cases h200 : status ≠ 200
      · rw [if_pos h200] at ha
        simp only [List.mem_cons] at ha
        rcases ha with ha | ha
        · subst ha; simp at hact
        · exact hrec s1 a ha hact
      · rw [if_neg h200] at ha
        by_cases hcap : cap
        · rw [if_pos hcap] at ha
          simp only [List.mem_singleton] at ha
          subst ha; simp at hact
        · rw [if_neg hcap] at ha
          simp only [List.mem_singleton] at ha
          subst ha; simp at hact

lemma apiRetryLoop_quota_marked (ipOf : Nat → String) (captchaIp : String)
    (resp : Nat → ApiResponse) :
    ∀ (fuel : Nat) (s : PoolState) (a : ApiAttempt),
    a ∈ (apiRetryLoop ipOf captchaIp resp fuel s).2.2 →
    a.action = ApiAction.quotaExceeded →
    a.keyId ∈ a.poolAfter.failedKeys := by
  intro fuel
  induction fuel with
  | zero => intro s a ha _; simp [apiRetryLoop] at ha
  | succ fuel ih =>
    intro s a ha hact
    rw [apiRetryLoop] at ha
    cases hnext : getNextApiKey s with
    | none => rw [hnext] at ha; simp [apiDrawCase] at ha
    | some r =>
      obtain ⟨⟨key, keyId⟩, s1⟩ := r
      rw [hnext, apiDrawCase] at ha
      exact apiRespCase_quota_marked ipOf captchaIp _ keyId s1 _ a ih ha hact

/-- C3: the fallback chain of `_scrape_amazon` stops at the first strategy
whose result `_is_valid_price` accepts: when method A's result is valid,
methods B and C are never invoked and the row records tag `"A"`; when A's
result is invalid and B's is valid, method C is never invoked and the row
records tag `"B"`. -/
theorem fallbackChain_monotonicCost (env : AmazonEnv) (s : PoolState) :
    (isValidPrice (scrapeAmazonDirect env.direct).1
        (scrapeAmazonDirect env.direct).2 = true →
      (scrapeAmazon env s).2.2.1 = [Strategy.direct] ∧
      Strategy.playwright ∉ (scrapeAmazon env s).2.2.1 ∧
      Strategy.api ∉ (scrapeAmazon env s).2.2.1 ∧
      (scrapeAmazon env s).1 = ((scrapeAmazonDirect env.direct).1,
        (scrapeAmazonDirect env.direct).2, "A", env.ipLoc)) ∧
    (isValidPrice (scrapeAmazonDirect env.direct).1
        (scrapeAmazonDirect env.direct).2 = false →
      isValidPrice (scrapeAmazonPlaywright env.render).1
        (scrapeAmazonPlaywright env.render).2 = true →
      (scrapeAmazon env s).2.2.1 = [Strategy.direct, Strategy.playwright] ∧
      Strategy.api ∉ (scrapeAmazon env s).2.2.1 ∧
      (scrapeAmazon env s).1 = ((scrapeAmazonPlaywright env.render).1,
        (scrapeAmazonPlaywright env.render).2, "B", env.ipLoc)) := by
  constructor
  · intro h
    simp [scrapeAmazon, h]
  · intro h1 h2
    simp [scrapeAmazon, h1, h2]

/-- A concrete page on which both selector loops succeed:
`_parse_amazon_prices` yields `("$20", "$10")`. -/
def pageOK : Page :=
  ⟨[some ⟨"$10", false, false⟩], [some ⟨"$20", false, false⟩]⟩

/-- A concrete page with no selector matches: `_parse_amazon_prices`
yields `("N/A", "N/A")`. -/
def pageEmpty : Page := ⟨[], []⟩

/-- Witness for `fallbackChain_monotonicCost`: a direct fetch that returns
status 200 with parseable prices is accepted and methods B and C are never
invoked. -/
theorem fallbackChain_monotonicCost_witness :
    (isValidPrice
        (scrapeAmazonDirect (FetchResult.resp 200 false pageOK)).1
        (scrapeAmazonDirect (FetchResult.resp 200 false pageOK)).2 = true) ∧
    ((scrapeAmazon ⟨FetchResult.resp 200 false pageOK,
        RenderResult.exn "boom", fun _ => ApiResponse.exn "boom", "ip"⟩
        ⟨[], 0, ∅⟩).2.2.1 = [Strategy.direct] ∧
      Strategy.playwright ∉ (scrapeAmazon ⟨FetchResult.resp 200 false pageOK,
        RenderResult.exn "boom", fun _ => ApiResponse.exn "boom", "ip"⟩
        ⟨[], 0, ∅⟩).2.2.1 ∧
      Strategy.api ∉ (scrapeAmazon ⟨FetchResult.resp 200 false pageOK,
        RenderResult.exn "boom", fun _ => ApiResponse.exn "boom", "ip"⟩
        ⟨[], 0, ∅⟩).2.2.1 ∧
      (scrapeAmazon ⟨FetchResult.resp 200 false pageOK,
        RenderResult.exn "boom", fun _ => ApiResponse.exn "boom", "ip"⟩
        ⟨[], 0, ∅⟩).1 =
        ((scrapeAmazonDirect (FetchResult.resp 200 false pageOK)).1,
          (scrapeAmazonDirect (FetchResult.resp 200 false pageOK)).2, "A",
          "ip")) :=
  ⟨by decide,
    (fallbackChain_monotonicCost
      ⟨FetchResult.resp 200 false pageOK, RenderResult.exn "boom",
        fun _ => ApiResponse.exn "boom", "ip"⟩ ⟨[], 0, ∅⟩).1 (by decide)⟩

/-- C4: the ScraperAPI strategy performs at most `min(3, K)` credential
attempts; every attempt that saw a quota status (403/429) has its credential
in the exhausted set of the pool state the next attempt draws from; and in
the two-credential scenario — credential 1 answers 403/429, credential 2
answers 200 — the outcome is the parsed Success of credential 2, credential
1 ends Exhausted, and the provenance trace cites credential 1 as
quota-exceeded and credential 2 as the success. -/
theorem scraperApiCredentialRetry (resp : Nat → ApiResponse) (s : PoolState)
    (st : Nat) (cap1 : Bool) (p1 page : Page)
    (hf : s.failedKeys = ∅) (hi : s.currentKeyIndex = 0)
    (hK : 2 ≤ s.apiKeys.length)
    (hr1 : resp 1 = ApiResponse.resp st cap1 p1) (hst : st = 403 ∨ st = 429)
    (hr2 : resp 2 = ApiResponse.resp 200 false page) :
    (∀ (g : Nat → ApiResponse) (t : PoolState),
      (scrapeAmazonApi g t).2.2.length ≤ min 3 t.apiKeys.length) ∧
    (∀ (g : Nat → ApiResponse) (t : PoolState) (a : ApiAttempt),
      a ∈ (scrapeAmazonApi g t).2.2 → a.action = ApiAction.quotaExceeded →
      a.keyId ∈ a.poolAfter.failedKeys) ∧
    ((scrapeAmazonApi resp s).1 =
      ((parseAmazonPrices page).1, (parseAmazonPrices page).2,
        "ScraperAPI Proxy") ∧
      1 ∈ (scrapeAmazonApi resp s).2.1.failedKeys ∧
      (scrapeAmazonApi resp s).2.2.map (fun a => (a.keyId, a.action)) =
        [(1, ApiAction.quotaExceeded), (2, ApiAction.success)]) := by
  refine ⟨?_, ?_, ?_⟩
  · intro g t
    rw [scrapeAmazonApi]
    by_cases h : t.apiKeys = []
    · simp [h]
    · rw [if_neg h]
      exact apiRetryLoop_length _ _ _ _ _
  · intro g t a ha hact
    rw [scrapeAmazonApi] at ha
    by_cases h : t.apiKeys = []
    · rw [if_pos h] at ha; simp at ha
    · rw [if_neg h] at ha
      exact apiRetryLoop_quota_marked _ _ _ _ _ a ha hact
  · obtain ⟨keys, idx, failed⟩ := s
    have hf' : failed = ∅ := hf
    have hi' : idx = 0 := hi
    have hK' : 2 ≤ keys.length := hK
    subst hf' hi'
    have hne : keys ≠ [] := by
      intro h; rw [h] at hK'; simp at hK'
    have h1m : 1 % keys.length = 1 := Nat.mod_eq_of_lt (by omega)
    have hdraw1 : getNextApiKey ⟨keys, 0, ∅⟩ =
        some ((keys.getD 0 "", 1), ⟨keys, 1, ∅⟩) := by
      have h := getNextApiKey_empty ⟨keys, 0, ∅⟩ rfl (by simp; omega)
      simpa [h1m] using h
    have hdraw2 : getNextApiKey ⟨keys, 1, insert 1 ∅⟩ =
        some ((keys.getD 1 "", 2), ⟨keys, 2 % keys.length, insert 1 ∅⟩) := by
      rw [getNextApiKey, if_neg hne,
        getNextLoop_step ⟨keys, 1, insert 1 ∅⟩ 0 (by simpa using by omega)
          (by simp)]
    obtain ⟨m, hm⟩ : ∃ m, min 3 keys.length = m + 2 :=
      ⟨min 3 keys.length - 2, by omega⟩
    have hloop : apiRetryLoop (fun _ => "ScraperAPI Proxy") "ScraperAPI Proxy"
        resp (m + 2) ⟨keys, 0, ∅⟩ =
        (((parseAmazonPrices page).1, (parseAmazonPrices page).2,
            "ScraperAPI Proxy"),
          ⟨keys, 2 % keys.length, insert 1 ∅⟩,
          [⟨1, ApiAction.quotaExceeded, ⟨keys, 1, insert 1 ∅⟩⟩,
            ⟨2, ApiAction.success, ⟨keys, 2 % keys.length, insert 1 ∅⟩⟩]) := by
      rw [show m + 2 = m + 1 + 1 from rfl, apiRetryLoop, hdraw1, apiDrawCase,
        hr1, apiRespCase, if_pos hst]
      simp only [markKeyFailed, Finset.empty_union]
      rw [apiRetryLoop, hdraw2, apiDrawCase, hr2, apiRespCase]
      norm_num
    have hfull : scrapeAmazonApi resp ⟨keys, 0, ∅⟩ =
        (((parseAmazonPrices page).1, (parseAmazonPrices page).2,
            "ScraperAPI Proxy"),
          ⟨keys, 2 % keys.length, insert 1 ∅⟩,
          [⟨1, ApiAction.quotaExceeded, ⟨keys, 1, insert 1 ∅⟩⟩,
            ⟨2, ApiAction.success, ⟨keys, 2 % keys.length, insert 1 ∅⟩⟩]) := by
      rw [scrapeAmazonApi, if_neg hne]
      have : min 3 (PoolState.apiKeys ⟨keys, 0, ∅⟩).length = m + 2 := hm
      rw [this, hloop]
    rw [hfull]
    refine ⟨rfl, ?_, rfl⟩
    simp

/-- A two-credential pool, both credentials Active, cursor at the start. -/
def poolTwo : PoolState := ⟨["kA", "kB"], 0, ∅⟩

/-- Responses for the quota scenario: credential 1 answers 403, credential 2
answers 200 with parseable prices. -/
def respQuotaThenOk : Nat → ApiResponse := fun k =>
  if k = 1 then ApiResponse.resp 403 false pageEmpty
  else ApiResponse.resp 200 false pageOK

/-- Witness for `scraperApiCredentialRetry`: the concrete two-credential
quota scenario. -/
theorem scraperApiCredentialRetry_witness :
    (poolTwo.failedKeys = ∅ ∧ poolTwo.currentKeyIndex = 0 ∧
      2 ≤ poolTwo.apiKeys.length ∧
      respQuotaThenOk 1 = ApiResponse.resp 403 false pageEmpty ∧
      ((403 : Nat) = 403 ∨ (403 : Nat) = 429) ∧
      respQuotaThenOk 2 = ApiResponse.resp 200 false pageOK) ∧
    ((scrapeAmazonApi respQuotaThenOk poolTwo).1 =
      ((parseAmazonPrices pageOK).1, (parseAmazonPrices pageOK).2,
        "ScraperAPI Proxy") ∧
      1 ∈ (scrapeAmazonApi respQuotaThenOk poolTwo).2.1.failedKeys ∧
      (scrapeAmazonApi respQuotaThenOk poolTwo).2.2.map
          (fun a => (a.keyId, a.action)) =
        [(1, ApiAction.quotaExceeded), (2, ApiAction.success)]) :=
  ⟨⟨rfl, rfl, by decide, by decide, Or.inl rfl, by decide⟩,
    (scraperApiCredentialRetry respQuotaThenOk poolTwo 403 false pageEmpty
      pageOK rfl rfl (by decide) (by decide) (Or.inl rfl) (by decide)).2.2⟩

/-! ### Selector-loop lemmas -/

lemma findSellingPrice_currency :
    ∀ (l : List (Option Elem)) (t : String),
    findSellingPrice l = some t → hasCurrency t = true := by
  intro l
  induction l with
  | nil => intro t h; simp [findSellingPrice] at h
  | cons hd tl ih =>
    intro t h
    cases hd with
    | none =>
      rw [findSellingPrice] at h
      exact ih t h
    | some el =>
      rw [findSellingPrice] at h
      by_cases hc :
          (hasCurrency el.text && !el.strikeParent && !el.textPriceParent) = true
      · rw [if_pos hc] at h
        injection h with h
        subst h
        simp only [Bool.and_eq_true] at hc
        exact hc.1.1
      · rw [if_neg hc] at h
        exact ih t h

lemma findMrp_currency :
    ∀ (l : List (Option Elem)) (t : String),
    findMrp l = some t → hasCurrency t = true := by
  intro l
  induction l with
  | nil => intro t h; simp [findMrp] at h
  | cons hd tl ih =>
    intro t h
    cases hd with
    | none =>
      rw [findMrp] at h
      exact ih t h
    | some el =>
      rw [findMrp] at h
      by_cases hc : hasCurrency el.text = true
      · rw [if_pos hc] at h
        injection h with h
        subst h
        exact hc
      · rw [if_neg hc] at h
        exact ih t h

/-- C6: when the selling-price loop finds a price and the MRP loop finds
nothing, `_parse_amazon_prices` emits the selling price as the MRP as well
(the no-discount default). -/
theorem parserNoDiscountDefault (p : Page) (t : String)
    (hmrp : findMrp p.mrpEls = none)
    (hsell : findSellingPrice p.sellingEls = some t) :
    parseAmazonPrices p = (t, t) := by
  have hcur := findSellingPrice_currency _ t hsell
  have hna : t ≠ "N/A" := by
    intro h
    rw [h] at hcur
    simp [hasCurrency] at hcur
  rw [parseAmazonPrices, hmrp, hsell]
  simp [hna]

/-- A page whose selling-price selectors match a `$10` element and whose MRP
selectors match nothing. -/
def pageSellOnly : Page := ⟨[some ⟨"$10", false, false⟩], []⟩

/-- Witness for `parserNoDiscountDefault`: on `pageSellOnly` the parser
emits `("$10", "$10")`. -/
theorem parserNoDiscountDefault_witness :
    (findMrp pageSellOnly.mrpEls = none ∧
      findSellingPrice pageSellOnly.sellingEls = some "$10") ∧
    parseAmazonPrices pageSellOnly = ("$10", "$10") :=
  ⟨⟨rfl, by decide⟩, parserNoDiscountDefault pageSellOnly "$10" rfl (by decide)⟩

/-- C10: `_is_valid_price` accepts only selling prices outside the sentinel
set; a page on which the selling loop finds nothing parses to a `"N/A"`
selling price (the MRP is never copied into the selling price), is rejected
by the classifier, and makes the chain escalate past method A. -/
theorem validityRejectsMrpOnlyPage :
    (∀ mrp selling, isValidPrice mrp selling = true →
      selling ∉ invalidSentinels) ∧
    (∀ p : Page, findSellingPrice p.sellingEls = none →
      parseAmazonPrices p = ((findMrp p.mrpEls).getD "N/A", "N/A") ∧
      isValidPrice (parseAmazonPrices p).1 (parseAmazonPrices p).2 = false) ∧
    (∀ (env : AmazonEnv) (s : PoolState) (pg : Page),
      env.direct = FetchResult.resp 200 false pg →
      findSellingPrice pg.sellingEls = none →
      Strategy.playwright ∈ (scrapeAmazon env s).2.2.1) := by
  refine ⟨?_, ?_, ?_⟩
  · intro mrp selling h
    rw [isValidPrice, Bool.and_eq_true, decide_eq_true_iff] at h
    exact h.1
  · intro p hsell
    have hparse : parseAmazonPrices p = ((findMrp p.mrpEls).getD "N/A", "N/A") := by
      rw [parseAmazonPrices, hsell]
      simp
    refine ⟨hparse, ?_⟩
    rw [hparse, isValidPrice]
    simp [invalidSentinels]
  · intro env s pg hdir hsell
    have hval : isValidPrice (scrapeAmazonDirect env.direct).1
        (scrapeAmazonDirect env.direct).2 = false := by
      rw [hdir, scrapeAmazonDirect]
      have hparse : parseAmazonPrices pg = ((findMrp pg.mrpEls).getD "N/A", "N/A") := by
        rw [parseAmazonPrices, hsell]
        simp
      simp [hparse, isValidPrice, invalidSentinels]
    rw [scrapeAmazon]
    simp only [hval]
    by_cases hb : isValidPrice (scrapeAmazonPlaywright env.render).1
        (scrapeAmazonPlaywright env.render).2 = true
    · simp [hb]
    · rw [Bool.not_eq_true] at hb
      by_cases hc : isValidPrice (scrapeAmazonApi env.api s).1.1
          (scrapeAmazonApi env.api s).1.2.1 = true
      · simp [hb, hc]
      · rw [Bool.not_eq_true] at hc
        simp [hb, hc]

/-- Witness for `validityRejectsMrpOnlyPage`: a page whose MRP selectors
match a `$20` element but whose selling selectors match nothing is rejected
and the chain reaches method B. -/
theorem validityRejectsMrpOnlyPage_witness :
    (isValidPrice "$20" "$10" = true ∧
      findSellingPrice (Page.mk [] [some ⟨"$20", false, false⟩]).sellingEls = none) ∧
    ("$10" ∉ invalidSentinels ∧
      (parseAmazonPrices (Page.mk [] [some ⟨"$20", false, false⟩]) =
        ((findMrp (Page.mk [] [some ⟨"$20", false, false⟩]).mrpEls).getD "N/A",
          "N/A") ∧
        isValidPrice (parseAmazonPrices (Page.mk [] [some ⟨"$20", false, false⟩])).1
          (parseAmazonPrices (Page.mk [] [some ⟨"$20", false, false⟩])).2 = false) ∧
      Strategy.playwright ∈
        (scrapeAmazon
          ⟨FetchResult.resp 200 false (Page.mk [] [some ⟨"$20", false, false⟩]),
            RenderResult.exn "boom", fun _ => ApiResponse.exn "boom", "ip"⟩
          ⟨[], 0, ∅⟩).2.2.1) :=
  ⟨⟨by decide, rfl⟩,
    ⟨validityRejectsMrpOnlyPage.1 "$20" "$10" (by decide),
      validityRejectsMrpOnlyPage.2.1 (Page.mk [] [some ⟨"$20", false, false⟩]) rfl,
      validityRejectsMrpOnlyPage.2.2
        ⟨FetchResult.resp 200 false (Page.mk [] [some ⟨"$20", false, false⟩]),
          RenderResult.exn "boom", fun _ => ApiResponse.exn "boom", "ip"⟩
        ⟨[], 0, ∅⟩ (Page.mk [] [some ⟨"$20", false, false⟩]) rfl rfl⟩⟩

/-! ### The string `"Blocked"` is never produced -/

lemma hasCurrency_blocked : hasCurrency "Blocked" = false := by decide

lemma parseAmazonPrices_not_blocked (p : Page) :
    (parseAmazonPrices p).1 ≠ "Blocked" ∧ (parseAmazonPrices p).2 ≠ "Blocked" := by
  have hsell : (findSellingPrice p.sellingEls).getD "N/A" ≠ "Blocked" := by
    cases h : findSellingPrice p.sellingEls with
    | none => simp
    | some t =>
      have hc := findSellingPrice_currency _ t h
      simp only [Option.getD_some]
      intro ht
      rw [ht, hasCurrency_blocked] at hc
      exact Bool.false_ne_true hc
  have hmrp : (findMrp p.mrpEls).getD "N/A" ≠ "Blocked" := by
    cases h : findMrp p.mrpEls with
    | none => simp
    | some t =>
      have hc := findMrp_currency _ t h
      simp only [Option.getD_some]
      intro ht
      rw [ht, hasCurrency_blocked] at hc
      exact Bool.false_ne_true hc
  rw [parseAmazonPrices]
  constructor
  · by_cases hcond : (findMrp p.mrpEls).getD "N/A" = "N/A" ∧
        (findSellingPrice p.sellingEls).getD "N/A" ≠ "N/A"
    · simpa [hcond] using hsell
    · simpa [hcond] using hmrp
  · exact hsell

lemma scrapeAmazonDirect_not_blocked (r : FetchResult) :
    (scrapeAmazonDirect r).1 ≠ "Blocked" ∧ (scrapeAmazonDirect r).2 ≠ "Blocked" := by
  cases r with
  | exn msg => exact ⟨by simp [scrapeAmazonDirect], by simp [scrapeAmazonDirect]⟩
  | resp status bot page =>
    rw [scrapeAmazonDirect]
    by_cases h200 : status = 200
    · rw [if_pos h200]
      by_cases hbot : bot = true
      · simp [hbot]
      · rw [Bool.not_eq_true] at hbot
        simpa [hbot] using parseAmazonPrices_not_blocked page
    · simp [h200]

lemma scrapeAmazonPlaywright_not_blocked (r : RenderResult) :
    (scrapeAmazonPlaywright r).1 ≠ "Blocked" ∧
    (scrapeAmazonPlaywright r).2 ≠ "Blocked" := by
  cases r with
  | exn msg =>
    exact ⟨by simp [scrapeAmazonPlaywright], by simp [scrapeAmazonPlaywright]⟩
  | content bot page =>
    rw [scrapeAmazonPlaywright]
    by_cases hbot : bot = true
    · simp [hbot]
    · rw [Bool.not_eq_true] at hbot
      simpa [hbot] using parseAmazonPrices_not_blocked page

lemma apiRespCase_not_blocked (ipOf : Nat → String) (captchaIp : String)
    (recurse : PoolState → ApiLoopResult) (keyId : Nat) (s1 : PoolState)
    (r : ApiResponse)
    (hrec : ∀ s', (recurse s').1.1 ≠ "Blocked" ∧ (recurse s').1.2.1 ≠ "Blocked") :
    (apiRespCase ipOf captchaIp recurse keyId s1 r).1.1 ≠ "Blocked" ∧
    (apiRespCase ipOf captchaIp recurse keyId s1 r).1.2.1 ≠ "Blocked" := by
  cases r with
  | exn msg => simpa [apiRespCase] using hrec s1
  | resp status cap page =>
    rw [apiRespCase]
    by_cases hq : status = 403 ∨ status = 429
    · simpa [hq] using hrec (markKeyFailed keyId s1)
    · by_cases h200 : status ≠ 200
      · simpa [hq, h200] using hrec s1
      · by_cases hcap : cap = true
        · simp [hq, h200, hcap]
        · rw [Bool.not_eq_true] at hcap
          simpa [hq, h200, hcap] using parseAmazonPrices_not_blocked page

lemma apiRetryLoop_not_blocked (ipOf : Nat → String) (captchaIp : String)
    (resp : Nat → ApiResponse) :
    ∀ (fuel : Nat) (s : PoolState),
    (apiRetryLoop ipOf captchaIp resp fuel s).1.1 ≠ "Blocked" ∧
    (apiRetryLoop ipOf captchaIp resp fuel s).1.2.1 ≠ "Blocked" := by
  intro fuel
  induction fuel with
  | zero => intro s; exact ⟨by simp [apiRetryLoop], by simp [apiRetryLoop]⟩
  | succ fuel ih =>
    intro s
    rw [apiRetryLoop]
    cases hnext : getNextApiKey s with
    | none => exact ⟨by simp [apiDrawCase], by simp [apiDrawCase]⟩
    | some r =>
      obtain ⟨⟨key, keyId⟩, s1⟩ := r
      rw [apiDrawCase]
      exact apiRespCase_not_blocked ipOf captchaIp _ keyId s1 _ ih

lemma scrapeAmazonApi_not_blocked (resp : Nat → ApiResponse) (s : PoolState) :
    (scrapeAmazonApi resp s).1.1 ≠ "Blocked" ∧
    (scrapeAmazonApi resp s).1.2.1 ≠ "Blocked" := by
  rw [scrapeAmazonApi]
  by_cases h : s.apiKeys = []
  · simp [h]
  · rw [if_neg h]
    exact apiRetryLoop_not_blocked _ _ _ _ _

lemma scrapeAmazon_not_blocked (env : AmazonEnv) (s : PoolState) :
    (scrapeAmazon env s).1.1 ≠ "Blocked" ∧
    (scrapeAmazon env s).1.2.1 ≠ "Blocked" := by
  rw [scrapeAmazon]
  by_cases ha : isValidPrice (scrapeAmazonDirect env.direct).1
      (scrapeAmazonDirect env.direct).2 = true
  · simpa [ha] using scrapeAmazonDirect_not_blocked env.direct
  · rw [Bool.not_eq_true] at ha
    by_cases hb : isValidPrice (scrapeAmazonPlaywright env.render).1
        (scrapeAmazonPlaywright env.render).2 = true
    · simpa [ha, hb] using scrapeAmazonPlaywright_not_blocked env.render
    · rw [Bool.not_eq_true] at hb
      by_cases hc : isValidPrice (scrapeAmazonApi env.api s).1.1
          (scrapeAmazonApi env.api s).1.2.1 = true
      · simpa [ha, hb, hc] using scrapeAmazonApi_not_blocked env.api s
      · rw [Bool.not_eq_true] at hc
        simpa [ha, hb, hc] using scrapeAmazonApi_not_blocked env.api s

/-- C5 counterexample: a direct fetch with HTTP status 403 (≥ 400) yields the
`"N/A"` sentinel, not `"Blocked"`; and a run in which every Amazon strategy
fails on HTTP-level errors ends with `amazon_mrp = "Error"`,
`amazon_selling_price = "Error"` and method `"X"` — not `"Blocked"`. -/
theorem classifierBlocked_counterexample :
    scrapeAmazonDirect (FetchResult.resp 403 false pageEmpty) = ("N/A", "N/A") ∧
    ("N/A", "N/A") ≠ (("Blocked" : String), ("Blocked" : String)) ∧
    (scrapeAmazon
        ⟨FetchResult.resp 403 false pageEmpty, RenderResult.exn "nav",
          fun _ => ApiResponse.resp 500 false pageEmpty, "ip"⟩
        ⟨["kA"], 0, ∅⟩).1 = ("Error", "Error", "X", "N/A") ∧
    ("Error" : String) ≠ "Blocked" := by
  refine ⟨by decide, by decide, ?_, by decide⟩
  decide

/-- C5 amended: an HTTP-level status other than 200 (in particular ≥ 400)
makes the direct strategy return the invalid sentinel `("N/A", "N/A")`
whatever the body contains (the status check precedes the bot-marker check);
when every strategy's result is rejected, the row records method `"X"` with
the API strategy's sentinel values; and no strategy ever produces the string
`"Blocked"` — it occurs only in the classifier's invalid list. -/
theorem classifierHttpErrorSentinel (status : Nat) (bot : Bool) (p : Page)
    (h : status ≠ 200) :
    scrapeAmazonDirect (FetchResult.resp status bot p) = ("N/A", "N/A") ∧
    isValidPrice "N/A" "N/A" = false ∧
    "Blocked" ∈ invalidSentinels ∧
    (∀ (env : AmazonEnv) (s : PoolState),
      isValidPrice (scrapeAmazonDirect env.direct).1
        (scrapeAmazonDirect env.direct).2 = false →
      isValidPrice (scrapeAmazonPlaywright env.render).1
        (scrapeAmazonPlaywright env.render).2 = false →
      isValidPrice (scrapeAmazonApi env.api s).1.1
        (scrapeAmazonApi env.api s).1.2.1 = false →
      (scrapeAmazon env s).1 = ((scrapeAmazonApi env.api s).1.1,
        (scrapeAmazonApi env.api s).1.2.1, "X", "N/A")) ∧
    (∀ (env : AmazonEnv) (s : PoolState),
      (scrapeAmazon env s).1.1 ≠ "Blocked" ∧
      (scrapeAmazon env s).1.2.1 ≠ "Blocked") := by
  refine ⟨?_, by decide, by decide, ?_, scrapeAmazon_not_blocked⟩
  · rw [scrapeAmazonDirect, if_neg h]
  · intro env s h1 h2 h3
    simp [scrapeAmazon, h1, h2, h3]

/-- Witness for `classifierHttpErrorSentinel` at status 403. -/
theorem classifierHttpErrorSentinel_witness :
    ((403 : Nat) ≠ 200) ∧
    (scrapeAmazonDirect (FetchResult.resp 403 true pageOK) = ("N/A", "N/A") ∧
      isValidPrice "N/A" "N/A" = false ∧
      "Blocked" ∈ invalidSentinels ∧
      (∀ (env : AmazonEnv) (s : PoolState),
        isValidPrice (scrapeAmazonDirect env.direct).1
          (scrapeAmazonDirect env.direct).2 = false →
        isValidPrice (scrapeAmazonPlaywright env.render).1
          (scrapeAmazonPlaywright env.render).2 = false →
        isValidPrice (scrapeAmazonApi env.api s).1.1
          (scrapeAmazonApi env.api s).1.2.1 = false →
        (scrapeAmazon env s).1 = ((scrapeAmazonApi env.api s).1.1,
          (scrapeAmazonApi env.api s).1.2.1, "X", "N/A")) ∧
      (∀ (env : AmazonEnv) (s : PoolState),
        (scrapeAmazon env s).1.1 ≠ "Blocked" ∧
        (scrapeAmazon env s).1.2.1 ≠ "Blocked")) :=
  ⟨by decide, classifierHttpErrorSentinel 403 true pageOK (by decide)⟩

/-! ## eBazaar scraping and per-item processing -/

/-- The `{mrp, sellingPrice}` object the in-page JavaScript of
`_scrape_ebazaar` returns (`UnifiedPriceScraper.py` lines 379-413). -/
structure EbazaarData where
  mrp : String
  sellingPrice : String
  deriving DecidableEq

/-- Embedding of `_scrape_ebazaar` (`UnifiedPriceScraper.py` lines
367-425).  The browser-session creation (`new_context` / `new_page`, lines
369-373) runs *before* the `try`, so a failure there propagates out of the
method; navigation and the in-page evaluation run inside the `try` and any
failure there is caught and mapped to `("Error", "Error")`.  An empty
(stripped) field falls back to `"N/A"` (`data.get(...).strip() or "N/A"`). -/
def scrapeEbazaar (ctx : Except String Unit)
    (ev : Except String EbazaarData) : Except String (String × String) :=
  match ctx with
  | .error e => .error e
  | .ok _ =>
    match ev with
    | .error _ => .ok ("Error", "Error")
    | .ok d =>
      let mrp := if d.mrp.trim = "" then "N/A" else d.mrp.trim
      let selling :=
        if d.sellingPrice.trim = "" then "N/A" else d.sellingPrice.trim
      .ok (mrp, selling)

/-- The output fields one loop iteration of `run` fills in
(`UnifiedPriceScraper.py` lines 140-160); the identifier and link columns
are verbatim copies of the input row and are omitted. -/
structure ProductRow where
  amazon_mrp : String
  amazon_selling_price : String
  amazon_method : String
  amazon_ip_location : String
  ebazaar_mrp : String
  ebazaar_selling_price : String
  deriving DecidableEq

/-- Everything one iteration of the `run` loop consumes for one work item:
whether each vendor link is present and non-blank, and the oracle values of
the two vendors' scrapes. -/
structure ItemEnv where
  hasAmazonLink : Bool
  hasEbazaarLink : Bool
  amazon : AmazonEnv
  ebazaarCtx : Except String Unit
  ebazaarEval : Except String EbazaarData

/-- Embedding of one iteration of the `run` loop (`UnifiedPriceScraper.py`
lines 140-160): scrape Amazon when its link is present, then eBazaar when
its link is present; a propagating eBazaar failure aborts the item (and, in
the source, the whole run). -/
def processItem (env : ItemEnv) (s : PoolState) :
    Except String (ProductRow × PoolState) :=
  let a :=
    if env.hasAmazonLink then
      let r := scrapeAmazon env.amazon s
      ((r.1.1, r.1.2.1, r.1.2.2.1, r.1.2.2.2), r.2.1)
    else (("", "", "", ""), s)
  if env.hasEbazaarLink then
    match scrapeEbazaar env.ebazaarCtx env.ebazaarEval with
    | .error e => .error e
    | .ok eb =>
      .ok (⟨a.1.1, a.1.2.1, a.1.2.2.1, a.1.2.2.2, eb.1, eb.2⟩, a.2)
  else
    .ok (⟨a.1.1, a.1.2.1, a.1.2.2.1, a.1.2.2.2, "", ""⟩, a.2)

/-- C7: strategy-level failures never escape one item's processing: a raised
direct fetch, Playwright navigation, or in-page evaluation is converted to a
sentinel, and as long as the eBazaar browser session itself can be created
(the only operation the source leaves outside a `try`), `processItem` always
returns a row — no exception propagates. -/
theorem itemFailuresContained (env : ItemEnv) (s : PoolState)
    (hctx : env.ebazaarCtx = Except.ok ()) :
    (∀ msg, scrapeAmazonDirect (FetchResult.exn msg) = ("N/A", "N/A")) ∧
    (∀ msg, scrapeAmazonPlaywright (RenderResult.exn msg) = ("N/A", "N/A")) ∧
    (∀ msg, scrapeEbazaar (Except.ok ()) (Except.error msg) =
      Except.ok ("Error", "Error")) ∧
    (∃ row s', processItem env s = Except.ok (row, s')) := by
  refine ⟨fun _ => rfl, fun _ => rfl, fun _ => rfl, ?_⟩
  rw [processItem]
  by_cases heb : env.hasEbazaarLink = true
  · rw [if_pos heb, hctx]
    cases hev : env.ebazaarEval with
    | error msg => exact ⟨_, _, rfl⟩
    | ok d => exact ⟨_, _, rfl⟩
  · rw [Bool.not_eq_true] at heb
    rw [if_neg (by simp [heb])]
    exact ⟨_, _, rfl⟩

/-- Witness for `itemFailuresContained`: an item whose direct fetch,
Playwright navigation, ScraperAPI request and eBazaar evaluation all raise
still yields a row. -/
theorem itemFailuresContained_witness :
    ((⟨true, true, ⟨FetchResult.exn "net", RenderResult.exn "nav",
        fun _ => ApiResponse.exn "net", "ip"⟩, Except.ok (),
        Except.error "eval"⟩ : ItemEnv).ebazaarCtx = Except.ok ()) ∧
    (∃ row s', processItem
        ⟨true, true, ⟨FetchResult.exn "net", RenderResult.exn "nav",
          fun _ => ApiResponse.exn "net", "ip"⟩, Except.ok (),
          Except.error "eval"⟩ ⟨["kA"], 0, ∅⟩ = Except.ok (row, s')) :=
  ⟨rfl,
    (itemFailuresContained
      ⟨true, true, ⟨FetchResult.exn "net", RenderResult.exn "nav",
        fun _ => ApiResponse.exn "net", "ip"⟩, Except.ok (),
        Except.error "eval"⟩ ⟨["kA"], 0, ∅⟩ rfl).2.2.2⟩

/-! ## Stealth-scraper chain and diagnostic capture

`stealth_scraper.py`.  Its `_get_next_api_key`, `_mark_key_failed`,
`_is_valid_price` and `_parse_amazon_prices` are textually identical to the
unified scraper's and share the embeddings above.  The only diagnostic
capture in the repository is the `page.screenshot` at lines 522-523 of
`_scrape_amazon_stealth_playwright`, guarded solely by `self.debug_mode`
(both entry points construct the scraper with `debug_mode=True`). -/

/-- Embedding of `_scrape_amazon_stealth_playwright` (`stealth_scraper.py`
lines 496-536), paired with the number of diagnostic captures this call
performs: the screenshot runs whenever `debug_mode` is set and
`page.content()` was reached — before the captcha check and regardless of
whether the parse succeeds.  Warm-up and human-gesture steps do not affect
the returned data; a raised navigation is caught and yields `("N/A","N/A")`
with no capture. -/
def scrapeAmazonStealthPlaywright (debugMode : Bool) (r : RenderResult) :
    (String × String) × Nat :=
  match r with
  | .exn _ => (("N/A", "N/A"), 0)
  | .content bot page =>
    ((if bot then ("CAPTCHA", "CAPTCHA") else parseAmazonPrices page),
      if debugMode then 1 else 0)

/-- Embedding of the stealth `_scrape_amazon_api` (`stealth_scraper.py`
lines 538-591): the same retry loop, with the captcha sentinel ip
`"US Proxy (CAPTCHA)"` and the per-key proxy-IP lookup
(`_get_scraperapi_ip`) abstracted as `ipLookup`. -/
def stealthScrapeAmazonApi (ipLookup : Nat → String)
    (resp : Nat → ApiResponse) (s : PoolState) : ApiLoopResult :=
  if s.apiKeys = [] then (("No API Key", "No API Key", "N/A"), s, [])
  else apiRetryLoop ipLookup "US Proxy (CAPTCHA)" resp
    (min 3 s.apiKeys.length) s

/-- Embedding of the stealth `_scrape_amazon` (`stealth_scraper.py` lines
469-494) with the total diagnostic-capture count of the call: when
`us_only` is set and the local IP is not in the US, only method C runs (no
capture possible); otherwise method B (stealth Playwright) runs, then
method C on failure. -/
def stealthScrapeAmazon (usOnly isLocalUs debugMode : Bool)
    (render : RenderResult) (ipLookup : Nat → String)
    (resp : Nat → ApiResponse) (ipLoc : String) (s : PoolState) :
    (String × String × String × String) × PoolState × Nat :=
  if usOnly && !isLocalUs then
    let c := stealthScrapeAmazonApi ipLookup resp s
    if isValidPrice c.1.1 c.1.2.1 then
      ((c.1.1, c.1.2.1, "C", c.1.2.2), c.2.1, 0)
    else
      ((c.1.1, c.1.2.1, "X", "N/A"), c.2.1, 0)
  else
    let b := scrapeAmazonStealthPlaywright debugMode render
    if isValidPrice b.1.1 b.1.2 then
      ((b.1.1, b.1.2, "B", ipLoc), s, b.2)
    else
      let c := stealthScrapeAmazonApi ipLookup resp s
      if isValidPrice c.1.1 c.1.2.1 then
        ((c.1.1, c.1.2.1, "C", c.1.2.2), c.2.1, b.2)
      else
        ((c.1.1, c.1.2.1, "X", "N/A"), c.2.1, b.2)

/-- C8 counterexample: with `debug_mode=True` (how both entry points run the
scraper), an item+vendor pair whose stealth-Playwright attempt *succeeds*
still performs one diagnostic capture — the claim requires zero captures for
pairs that end Succeeded. -/
theorem diagnosticCapture_counterexample :
    (stealthScrapeAmazon false true true (RenderResult.content false pageOK)
        (fun _ => "ip") (fun _ => ApiResponse.exn "net") "ip"
        ⟨[], 0, ∅⟩).1.2.2.1 = "B" ∧
    (stealthScrapeAmazon false true true (RenderResult.content false pageOK)
        (fun _ => "ip") (fun _ => ApiResponse.exn "net") "ip"
        ⟨[], 0, ∅⟩).2.2 = 1 ∧
    (1 : Nat) ≠ 0 := by
  refine ⟨?_, ?_, by decide⟩ <;> decide

/-- C8 amended: the diagnostic capture of the stealth scraper is gated only
by `debug_mode` and by whether the rendered attempt reached
`page.content()`: one capture per stealth-Playwright attempt that retrieved
content (zero when navigation raised, when method B is skipped in us-only
mode, or when debug mode is off), independent of whether the chain ends
Succeeded or Exhausted. -/
theorem diagnosticCapture_debugGated (usOnly isLocalUs debugMode : Bool)
    (render : RenderResult) (ipLookup : Nat → String)
    (resp : Nat → ApiResponse) (ipLoc : String) (s : PoolState) :
    (stealthScrapeAmazon usOnly isLocalUs debugMode render ipLookup resp
        ipLoc s).2.2 =
      if usOnly && !isLocalUs then 0
      else match render with
        | .exn _ => 0
        | .content _ _ => if debugMode then 1 else 0 := by
  rw [stealthScrapeAmazon]
  by_cases hus : (usOnly && !isLocalUs) = true
  · rw [if_pos hus, if_pos hus]
    by_cases hc : isValidPrice (stealthScrapeAmazonApi ipLookup resp s).1.1
        (stealthScrapeAmazonApi ipLookup resp s).1.2.1 = true
    · simp [hc]
    · rw [Bool.not_eq_true] at hc
      simp [hc]
  · rw [if_neg hus, if_neg hus]
    cases render with
    | exn msg =>
      by_cases hb : isValidPrice
          (scrapeAmazonStealthPlaywright debugMode (RenderResult.exn msg)).1.1
          (scrapeAmazonStealthPlaywright debugMode (RenderResult.exn msg)).1.2 = true
      · simp [scrapeAmazonStealthPlaywright] at hb ⊢
        simp [hb]
      · rw [Bool.not_eq_true] at hb
        simp only [scrapeAmazonStealthPlaywright] at hb ⊢
        by_cases hc : isValidPrice (stealthScrapeAmazonApi ipLookup resp s).1.1
            (stealthScrapeAmazonApi ipLookup resp s).1.2.1 = true
        · simp [hb, hc]
        · rw [Bool.not_eq_true] at hc
          simp [hb, hc]
    | content bot page =>
      by_cases hb : isValidPrice
          (scrapeAmazonStealthPlaywright debugMode
            (RenderResult.content bot page)).1.1
          (scrapeAmazonStealthPlaywright debugMode
            (RenderResult.content bot page)).1.2 = true
      · simp only [scrapeAmazonStealthPlaywright] at hb ⊢
        simp [hb]
      · rw [Bool.not_eq_true] at hb
        simp only [scrapeAmazonStealthPlaywright] at hb ⊢
        by_cases hc : isValidPrice (stealthScrapeAmazonApi ipLookup resp s).1.1
            (stealthScrapeAmazonApi ipLookup resp s).1.2.1 = true
        · simp [hb, hc]
        · rw [Bool.not_eq_true] at hc
          simp [hb, hc]

/-! ## Entry point (`main`) -/

/-- The two classes of failure `main` distinguishes
(`UnifiedPriceScraper.py` lines 466-470). -/
inductive RunError where
  | fileNotFound
  | other (msg : String)
  deriving DecidableEq

/-- What one `main` invocation observably did: printed the input-not-found
message, printed the generic error message, wrote `price/data.csv`, and
re-raised an exception. -/
structure MainOutcome where
  reportedNotFound : Bool
  reportedError : Bool
  wroteOutput : Bool
  raised : Option String
  deriving DecidableEq

/-- The first statement of `run` is `pd.read_csv(input_csv)`
(`UnifiedPriceScraper.py` line 124): a missing input file raises
`FileNotFoundError` before any other work; otherwise the rest of the run
(`body`) decides the outcome. -/
def runScraper (inputExists : Bool) (body : Except RunError Unit) :
    Except RunError Unit :=
  if inputExists then body else .error .fileNotFound

/-- Embedding of `main` (`UnifiedPriceScraper.py` lines 428-470): the `try`
runs the scraper and then writes the output file, so the write happens only
when `run` returned normally; `except FileNotFoundError` prints the
input-not-found message and swallows the error; the generic `except` prints
and then re-raises (`raise`). -/
def mainRun (inputExists : Bool) (body : Except RunError Unit) : MainOutcome :=
  match runScraper inputExists body with
  | .ok _ => ⟨false, false, true, none⟩
  | .error .fileNotFound => ⟨true, false, false, none⟩
  | .error (.other e) => ⟨false, true, false, some e⟩

/-- C9: a missing input file is reported and non-fatal — the input-not-found
message is printed, no output file is written, and nothing is re-raised —
while every other unhandled failure is reported and then propagates to the
caller, also without writing output. -/
theorem missingInputNonFatal :
    (∀ body, mainRun false body =
      ⟨true, false, false, none⟩) ∧
    (∀ (inputExists : Bool) (body : Except RunError Unit) (e : String),
      runScraper inputExists body = .error (.other e) →
      mainRun inputExists body = ⟨false, true, false, some e⟩) := by
  constructor
  · intro body
    rfl
  · intro inputExists body e h
    rw [mainRun, h]

/-- Witness for `missingInputNonFatal`: a missing input file, and a run that
fails with a generic error. -/
theorem missingInputNonFatal_witness :
    (runScraper true (Except.error (RunError.other "boom")) =
      Except.error (RunError.other "boom")) ∧
    (mainRun false (Except.ok ()) = ⟨true, false, false, none⟩ ∧
      mainRun true (Except.error (RunError.other "boom")) =
        ⟨false, true, false, some "boom"⟩) :=
  ⟨rfl,
    missingInputNonFatal.1 (Except.ok ()),
    missingInputNonFatal.2 true (Except.error (RunError.other "boom")) "boom"
      rfl⟩

end RedditScrapper
